import Mathlib

/-!
Verification development for the AI-readiness website auditor.

The repository contains a small HTTP fetch client (src/requests.py), a lenient
HTML tree builder and query engine (src/bs4/__init__.py), a catalogue of rule
evaluators duplicated across src/ai_readiness/evaluations.py,
src/ai_readiness_checker.py, src/analyze_website.py and src/app.py, and an
orchestrator that aggregates rule results into a scored report.

This file gives a shallow embedding of those components and proves or refutes
the frozen specification claims about them.

Conventions of the embedding:
- Python strings are Lean String; bytes are List Nat; machine integers are Int.
- Attribute values as produced by the HTML tokenizer are Option String, since a
  valueless attribute such as <img alt> carries the Python value None.
- Python exceptions are modelled with Except String, carrying a message close
  to str(e); exact exception message text is abbreviated (no quotes).
- The HTML tokenizer itself is the standard library collaborator, out of the
  repository; components consume a token stream (List Tok) directly, matching
  the handle_starttag / handle_endtag / handle_data interface.
- Network traffic is modelled by an oracle Net mapping (method, url) to the
  outcome of urllib.request.urlopen: a successful response, an HTTPError (the
  exception urlopen raises for an HTTP-level 4xx/5xx error response), or a
  URLError (transport failure with no response at all).  Request headers,
  redirect flags and timeouts do not influence the modelled oracle.
- Rule evaluators call the query engine with bs4 keyword-argument filters
  (for example find_all("script", type="application/ld+json")); these are
  embedded as the corresponding attrs filter, the bs4 convention.
-/

/-- Document-model element, from class Element in src/bs4/__init__.py: a tag
name, an attribute mapping (association list, keys unique), accumulated direct
text, and the ordered children.  The Python parent back-pointer is represented
implicitly: the tree builder state keeps a path to the current element, and the
query engine never reads parent. -/
inductive Elem where
  | mk (name : String) (attrs : List (String × Option String)) (text : String)
       (children : List Elem)

def Elem.name : Elem → String
  | .mk n _ _ _ => n

def Elem.attrs : Elem → List (String × Option String)
  | .mk _ a _ _ => a

def Elem.text : Elem → String
  | .mk _ _ t _ => t

def Elem.children : Elem → List Elem
  | .mk _ _ _ cs => cs

/-- Python dict.get on the attribute mapping: returns the stored value, which
may itself be None; both a missing key and a stored None give none. -/
def pyGet (el : Elem) (k : String) : Option String :=
  (List.lookup k el.attrs).join

/-- Python membership test `k in el.attrs` (Element.has_attr). -/
def has_attr (el : Elem) (k : String) : Bool :=
  (List.lookup k el.attrs).isSome

/-- Truthiness of the Python value el.get(k): None and the empty string are
falsy, any other string is truthy. -/
def pyTruthyStr (v : Option String) : Bool :=
  match v with
  | none => false
  | some s => s ≠ ""

mutual
/-- Element._iter: yield the element itself, then every descendant, depth
first, in document pre-order. -/
def iterElem : Elem → List Elem
  | .mk n a t cs => .mk n a t cs :: iterList cs
/-- Pre-order traversal of a forest, used by iterElem for the children. -/
def iterList : List Elem → List Elem
  | [] => []
  | c :: cs => iterElem c ++ iterList cs
end

/-- Name filter of Element.find / Element.find_all: Python passes None, a
single string, or a list/tuple of strings.  The dynamic dispatch
`name is None or el.name == name or (isinstance(name, (list, tuple)) and
el.name in name)` collapses per variant: a string compares for equality (the
isinstance branch is then irrelevant), and a list never equals a string so
only the membership branch can hold. -/
inductive NameFilter where
  | anyName
  | one (s : String)
  | many (l : List String)

/-- Attribute-filter value: either an exact expected string or the Python
literal True used as the key-exists sentinel. -/
inductive AttrVal where
  | str (s : String)
  | pyTrue

abbrev AttrFilter := Option (List (String × AttrVal))

def nameMatch (nf : NameFilter) (el : Elem) : Bool :=
  match nf with
  | .anyName => true
  | .one s => el.name == s
  | .many l => l.contains el.name

/-- One conjunct of the attribute filter:
`el.attrs.get(k) == v or (v is True and k in el.attrs)`.
For a string expectation the first disjunct demands the stored value be that
string (a stored None or a missing key compare unequal); for the True sentinel
the first disjunct is always false (no attribute value is the boolean True) and
the second demands only key presence. -/
def attrEntryMatch (el : Elem) : String × AttrVal → Bool
  | (k, .str v) => List.lookup k el.attrs == some (some v)
  | (k, .pyTrue) => (List.lookup k el.attrs).isSome

def attrMatch (af : AttrFilter) (el : Elem) : Bool :=
  match af with
  | none => true
  | some l => l.all (attrEntryMatch el)

/-- Loop body of Element.find_all: iterate, append each element satisfying the
name condition and then the attribute condition to the results accumulator.
The `el is self` identity test of the source skips exactly the first element
yielded by _iter (the receiver itself), since in an acyclic tree no other
yielded object is identical to the receiver; the loop therefore runs over
iterList self.children. -/
def findAllLoop (nf : NameFilter) (af : AttrFilter) :
    List Elem → List Elem → List Elem
  | [], results => results
  | el :: rest, results =>
      if nameMatch nf el then
        if attrMatch af el then findAllLoop nf af rest (results ++ [el])
        else findAllLoop nf af rest results
      else findAllLoop nf af rest results

/-- Element.find_all from src/bs4/__init__.py. -/
def find_all (self : Elem) (nf : NameFilter) (af : AttrFilter) : List Elem :=
  findAllLoop nf af (iterList self.children) []

/-- Loop body of Element.find: same traversal and conditions as find_all, but
return the first hit. -/
def findLoop (nf : NameFilter) (af : AttrFilter) : List Elem → Option Elem
  | [] => none
  | el :: rest =>
      if nameMatch nf el then
        if attrMatch af el then some el else findLoop nf af rest
      else findLoop nf af rest

/-- Element.find from src/bs4/__init__.py. -/
def find (self : Elem) (nf : NameFilter) (af : AttrFilter) : Option Elem :=
  findLoop nf af (iterList self.children)

/-- Combined predicate of both filters, for the specification-level statement
of the query-engine claims. -/
def matchesFilters (nf : NameFilter) (af : AttrFilter) (el : Elem) : Bool :=
  nameMatch nf el && attrMatch af el

/-- Tokenizer events fed to the tree builder (html.parser collaborator). -/
inductive Tok where
  | startTag (name : String) (attrs : List (String × Option String))
  | endTag (name : String)
  | text (data : String)

/-- State of class _Parser: the root element plus the current cursor.  The
Python field current holds either an element of the tree or None; it is
embedded as an optional reversed path of child indices from the root (head =
index at the deepest level), so current.parent is the tail of the path and the
root is the empty path. -/
structure PState where
  root : Elem
  cur : Option (List Nat)

def initState : PState :=
  ⟨Elem.mk "[document]" [] "" [], some []⟩

/-- Node addressed by a forward path of child indices. -/
def nodeAt : Elem → List Nat → Option Elem
  | e, [] => some e
  | e, i :: p =>
      match e.children.get? i with
      | some c => nodeAt c p
      | none => none

/-- Name of the node addressed by a reversed path (total; the builder only
ever uses valid paths). -/
def nameAtRev (root : Elem) (rp : List Nat) : String :=
  match nodeAt root rp.reverse with
  | some e => e.name
  | none => ""

def childCountAtRev (root : Elem) (rp : List Nat) : Nat :=
  match nodeAt root rp.reverse with
  | some e => e.children.length
  | none => 0

def modifyIdx {α : Type} : List α → Nat → (α → α) → List α
  | [], _, _ => []
  | c :: cs, 0, f => f c :: cs
  | c :: cs, i + 1, f => c :: modifyIdx cs i f

/-- Rebuild the tree with a new last child appended at the node addressed by a
forward path (Element.append as used by handle_starttag). -/
def appendChildAt : Elem → List Nat → Elem → Elem
  | .mk n a t cs, [], el => .mk n a t (cs ++ [el])
  | .mk n a t cs, i :: p, el => .mk n a t (modifyIdx cs i (fun c => appendChildAt c p el))

/-- Rebuild the tree with data concatenated onto the text of the node
addressed by a forward path (handle_data). -/
def appendTextAt : Elem → List Nat → String → Elem
  | .mk n a t cs, [], d => .mk n a (t ++ d) cs
  | .mk n a t cs, i :: p, d => .mk n a t (modifyIdx cs i (fun c => appendTextAt c p d))

/-- While loop of _Parser.handle_endtag on a non-None current:
`while self.current is not None and self.current.name != tag:
self.current = self.current.parent`.  Walking past the root yields None, since
the parent of the root is None. -/
def walkAux (root : Elem) (tag : String) : List Nat → Option (List Nat)
  | [] => if root.name == tag then some [] else none
  | i :: rest =>
      if nameAtRev root (i :: rest) == tag then some (i :: rest)
      else walkAux root tag rest

def walkWhile (root : Elem) (tag : String) : Option (List Nat) → Option (List Nat)
  | none => none
  | some rp => walkAux root tag rp

/-- Tail of _Parser.handle_endtag:
`if self.current is not None: self.current = self.current.parent or self.root`.
When the match is the root itself, parent is None and the `or` falls back to
the root. -/
def parentOrRoot : List Nat → Option (List Nat)
  | [] => some []
  | _ :: rest => some rest

/-- _Parser.handle_endtag from src/bs4/__init__.py.  Note the walk can run off
the root, in which case current is left as None (the guard skips the
reassignment). -/
def handle_endtag (tag : String) (st : PState) : PState :=
  match walkWhile st.root tag st.cur with
  | none => { st with cur := none }
  | some rp => { st with cur := parentOrRoot rp }

/-- _Parser.handle_starttag: create the element, append it as last child of
current and descend into it.  When current is None, the attribute access
None.append raises. -/
def handle_starttag (tag : String) (attrs : List (String × Option String))
    (st : PState) : Except String PState :=
  match st.cur with
  | none => .error "AttributeError: NoneType object has no attribute append"
  | some rp =>
      let idx := childCountAtRev st.root rp
      .ok { root := appendChildAt st.root rp.reverse (Elem.mk tag attrs "" []),
            cur := some (idx :: rp) }

/-- _Parser.handle_data: `if self.current: self.current.text += data`; a None
current is falsy, so the data is dropped. -/
def handle_data (data : String) (st : PState) : PState :=
  match st.cur with
  | none => st
  | some rp => { st with root := appendTextAt st.root rp.reverse data }

def feedTok (st : PState) : Tok → Except String PState
  | .startTag n a => handle_starttag n a st
  | .endTag n => .ok (handle_endtag n st)
  | .text d => .ok (handle_data d st)

/-- HTMLParser.feed over a whole token stream; an exception raised by a
handler propagates. -/
def feedToks (toks : List Tok) : Except String PState :=
  toks.foldlM feedTok initState

/-- BeautifulSoup(markup): run the internal _Parser over the token stream of
the markup and expose the resulting root (the BeautifulSoup object is a fresh
[document] element adopting the same children, structurally the parser root). -/
def parseDoc (toks : List Tok) : Except String Elem :=
  (feedToks toks).map (fun st => st.root)

/-! ## Query-engine lemmas and claims C1, C2 -/

/-- Specification-level document order: every element of the tree in pre-order
depth-first order, excluding the document node itself. -/
def documentOrder (d : Elem) : List Elem :=
  (iterElem d).drop 1

theorem iterElem_cons (d : Elem) : iterElem d = d :: iterList d.children := by
  cases d; rfl

theorem documentOrder_eq (d : Elem) : documentOrder d = iterList d.children := by
  rw [documentOrder, iterElem_cons]; rfl

theorem findAllLoop_eq_filter (nf : NameFilter) (af : AttrFilter) :
    ∀ (l acc : List Elem),
      findAllLoop nf af l acc = acc ++ l.filter (matchesFilters nf af) := by
  intro l
  induction l with
  | nil => intro acc; simp [findAllLoop]
  | cons el rest ih =>
      intro acc
      by_cases h1 : nameMatch nf el
      · by_cases h2 : attrMatch af el
        · simp [findAllLoop, h1, h2, ih, List.filter_cons, matchesFilters]
        · simp [findAllLoop, h1, h2, ih, List.filter_cons, matchesFilters]
      · simp [findAllLoop, h1, ih, List.filter_cons, matchesFilters]

theorem findLoop_eq_head_filter (nf : NameFilter) (af : AttrFilter) :
    ∀ l : List Elem, findLoop nf af l = (l.filter (matchesFilters nf af)).head? := by
  intro l
  induction l with
  | nil => rfl
  | cons el rest ih =>
      by_cases h1 : nameMatch nf el
      · by_cases h2 : attrMatch af el
        · simp [findLoop, h1, h2, List.filter_cons, matchesFilters]
        · simp [findLoop, h1, h2, ih, List.filter_cons, matchesFilters]
      · simp [findLoop, h1, ih, List.filter_cons, matchesFilters]

/-- Claim C1 (refuting evidence): processing an EndTag with no open ancestor of
that name leaves the tree untouched but sets current to None rather than the
root, and the next StartTag then dereferences None and raises, so feeding the
token stream of the markup "</div><p>x</p>" into a fresh parser fails with an
AttributeError instead of attaching p under the root. -/
theorem stray_endtag_crashes_next_starttag :
    (handle_endtag "div" initState).cur = none
    ∧ (handle_endtag "div" initState).root = initState.root
    ∧ parseDoc [Tok.endTag "div", Tok.startTag "p" [], Tok.text "x", Tok.endTag "p"]
        = .error "AttributeError: NoneType object has no attribute append" :=
  ⟨rfl, rfl, rfl⟩

/-- Claim C2: find_all returns exactly the elements of the tree, excluding the
document node itself, that satisfy both the name filter and the conjunction of
the attribute filter, in document pre-order; and find returns the first such
element, or none when there is none. -/
theorem find_all_find_spec (self : Elem) (nf : NameFilter) (af : AttrFilter) :
    find_all self nf af = (documentOrder self).filter (matchesFilters nf af)
    ∧ find self nf af = (find_all self nf af).head? := by
  constructor
  · rw [find_all, findAllLoop_eq_filter, documentOrder_eq]; rfl
  · rw [find, find_all, findAllLoop_eq_filter, findLoop_eq_head_filter]; rfl

/-! ## Fetch client (src/requests.py) and claim C3 -/

/-- Outcome of one urllib.request.urlopen call, as observed by the repository
code: a response (content bytes, decoded text, headers as sent, status), an
HTTPError exception (raised for HTTP-level 4xx/5xx error responses, carrying
the servers code and headers), or a URLError (transport failure: DNS,
connection refused, timeout - no response at all). -/
inductive UrlOpenResult where
  | success (content : List Nat) (text : String) (headers : List (String × String))
            (status : Nat)
  | httpError (code : Nat) (headers : List (String × String))
  | urlError (reason : String)

/-- Network oracle: method and url determine the outcome.  Request headers,
redirect handling and timeouts do not influence the modelled oracle. -/
abbrev Net := String → String → UrlOpenResult

/-- Class Response from src/requests.py.  The headers mapping is the plain
dict produced by dict(resp.headers): an association list keyed by the header
names exactly as the server sent them. -/
structure Response where
  url : String
  content : List Nat
  text : String
  headers : List (String × String)
  status_code : Nat

/-- Exceptions a urlopen call can raise. -/
inductive NetErr where
  | httpError (code : Nat) (headers : List (String × String))
  | urlError (reason : String)

/-- Function _request from src/requests.py: issue the call and wrap a
successful response; any exception propagates. -/
def _request (method url : String) (net : Net) : Except NetErr Response :=
  match net method url with
  | .success d t h s => .ok ⟨url, d, t, h, s⟩
  | .httpError c h => .error (.httpError c h)
  | .urlError r => .error (.urlError r)

/-- Function get from src/requests.py: plain _request, every failure
propagates. -/
def reqGet (url : String) (net : Net) : Except NetErr Response :=
  _request "GET" url net

/-- Function head from src/requests.py: catches HTTPError and converts it into
a normal Response with empty body, the error code and the error headers; a
URLError still propagates. -/
def reqHead (url : String) (net : Net) : Except NetErr Response :=
  match _request "HEAD" url net with
  | .ok r => .ok r
  | .error (.httpError c h) => .ok ⟨url, [], "", h, c⟩
  | .error (.urlError r) => .error (.urlError r)

/-- Claim C3: head turns an HTTP-level 4xx/5xx error response into a normal
FetchResult carrying the status code and the headers the server sent, with an
empty body; head fails only on a transport-level failure with no response at
all; and get propagates every failure of the underlying call. -/
theorem head_get_error_policy (net : Net) (url : String) :
    (∀ code hdrs, net "HEAD" url = .httpError code hdrs →
        reqHead url net = .ok ⟨url, [], "", hdrs, code⟩)
    ∧ (∀ e, reqHead url net = .error e →
        ∃ r, e = .urlError r ∧ net "HEAD" url = .urlError r)
    ∧ (∀ c h, net "GET" url = .httpError c h →
        reqGet url net = .error (.httpError c h))
    ∧ (∀ r, net "GET" url = .urlError r →
        reqGet url net = .error (.urlError r)) := by
  refine ⟨?_, ?_, ?_, ?_⟩
  · intro code hdrs h
    simp [reqHead, _request, h]
  · intro e h
    rw [reqHead, _request] at h
    cases hh : net "HEAD" url with
    | success d t hs s => rw [hh] at h; exact absurd h (by simp)
    | httpError c hs => rw [hh] at h; exact absurd h (by simp)
    | urlError r => rw [hh] at h; simp at h; exact ⟨r, h.symm, rfl⟩
  · intro c h hh
    simp [reqGet, _request, hh]
  · intro r hh
    simp [reqGet, _request, hh]

/-- Concrete oracle for the claim C3 witness: the server answers HEAD with a
404 error response and GET with a transport failure. -/
def netC3 : Net := fun method _ =>
  if method == "HEAD" then .httpError 404 [("Server", "nginx")]
  else .urlError "connection refused"

/-- Witness for claim C3 at a concrete oracle: the 404 HEAD answer comes back
as a normal response with empty body, and the GET transport failure
propagates. -/
theorem head_get_error_policy_witness :
    reqHead "http://example.com/a" netC3
      = .ok ⟨"http://example.com/a", [], "", [("Server", "nginx")], 404⟩
    ∧ reqGet "http://example.com/a" netC3
      = .error (.urlError "connection refused") :=
  ⟨(head_get_error_policy netC3 "http://example.com/a").1 404 [("Server", "nginx")] rfl,
   (head_get_error_policy netC3 "http://example.com/a").2.2.2 "connection refused" rfl⟩

/-! ## String helpers mirroring the Python primitives used by the rules -/

/-- Python str.lower (ASCII case folding suffices for the inputs involved). -/
def lowerStr (s : String) : String :=
  ⟨s.data.map Char.toLower⟩

def chStarts : List Char → List Char → Bool
  | [], _ => true
  | _ :: _, [] => false
  | x :: xs, y :: ys => x == y && chStarts xs ys

def chSub (needle : List Char) : List Char → Bool
  | [] => needle.isEmpty
  | h :: rest => chStarts needle (h :: rest) || chSub needle rest

/-- Python substring test `needle in hay`. -/
def strContains (hay needle : String) : Bool :=
  chSub needle.data hay.data

/-- Python sep.join(parts). -/
def pyJoin (sep : String) : List String → String
  | [] => ""
  | [s] => s
  | s :: rest => s ++ sep ++ pyJoin sep rest

/-- Truthiness of s.strip(): blank iff every character is whitespace (Python
strips a slightly larger Unicode whitespace set; the difference is immaterial
here). -/
def isBlank (s : String) : Bool :=
  s.data.all Char.isWhitespace

def digitsVal (l : List Char) : Option Nat :=
  if l.isEmpty then none
  else if l.all Char.isDigit then
    some (l.foldl (fun a c => a * 10 + (c.toNat - 48)) 0)
  else none

/-- Python int(str): optional surrounding whitespace, optional sign, decimal
digits (digit-group underscores are not modelled); none when the text does not
parse, which in Python raises ValueError. -/
def pyInt (s : String) : Option Int :=
  let l := ((s.data.dropWhile Char.isWhitespace).reverse.dropWhile
      Char.isWhitespace).reverse
  match l with
  | '-' :: rest => (digitsVal rest).map (fun n => -(n : Int))
  | '+' :: rest => (digitsVal rest).map (fun n => (n : Int))
  | _ => (digitsVal l).map (fun n => (n : Int))

/-! ## Rule evaluators

The repository duplicates the rule catalogue.  The five checks below are
textually identical in src/analyze_website.py, src/ai_readiness_checker.py,
src/ai_readiness/evaluations.py and src/app.py and are defined once.  The two
checks that differ between the variants follow in the namespaces AW
(src/analyze_website.py), ARC (src/ai_readiness_checker.py) and EV
(src/ai_readiness/evaluations.py, whose bodies src/app.py repeats verbatim).
-/

def check_semantic_html (soup : Elem) : Bool × String :=
  let tags := ["header", "nav", "main", "article", "section", "footer"]
  let found := tags.any (fun t => (find soup (.one t) none).isSome)
  (found, if found then "Semantic HTML tags found."
          else "Add semantic HTML5 tags for structure.")

def check_headings_structure (soup : Elem) : Bool × String :=
  let headings := find_all soup (.many ["h1", "h2", "h3", "h4", "h5", "h6"]) none
  let found := !headings.isEmpty
  (found, if found then toString headings.length ++ " heading tags found."
          else "Add descriptive headings (h1-h6).")

def check_lists_and_tables (soup : Elem) : Bool × String :=
  let lists := find_all soup (.many ["ul", "ol"]) none
  let tables := find_all soup (.one "table") none
  let found := !lists.isEmpty || !tables.isEmpty
  (found, if found then
            toString lists.length ++ " lists, " ++ toString tables.length
              ++ " tables found."
          else "Consider using lists and tables for structured content.")

/-- check_language_attribute: `found = html_tag and html_tag.has_attr('lang')`
evaluates to None (falsy) when no html element exists; only truthiness of the
result is ever consumed, so found is embedded as a Bool. -/
def check_language_attribute (soup : Elem) : Bool × String :=
  let html_tag := find soup (.one "html") none
  let found := match html_tag with
    | some e => has_attr e "lang"
    | none => false
  (found, if found then "lang attribute present on html tag."
          else "Add lang attribute for language declaration.")

def check_transcripts_captions (soup : Elem) : Bool × String :=
  let videos := find_all soup (.one "video") none
  let audios := find_all soup (.one "audio") none
  let found :=
    if videos.isEmpty && audios.isEmpty then true
    else
      videos.all (fun v =>
        pyTruthyStr (pyGet v "aria-label") || pyTruthyStr (pyGet v "title")
          || (find v (.one "track") (some [("kind", .str "captions")])).isSome)
      && audios.all (fun a =>
        pyTruthyStr (pyGet a "aria-label") || pyTruthyStr (pyGet a "title"))
  (found, if found then "Multimedia elements have ARIA labels/titles/captions."
          else "Provide captions/transcripts for videos/audio.")

/-- Predicate of the comprehension
`[img for img in images if not img.has_attr('alt') or not img['alt'].strip()]`
for one img: ok true when the img counts as missing alt text, ok false when
not, and an AttributeError when the alt attribute is present but valueless
(its Python value is None, and None.strip() raises). -/
def altMissingB (img : Elem) : Except String Bool :=
  if !has_attr img "alt" then .ok true
  else
    match (List.lookup "alt" img.attrs).join with
    | none => .error "AttributeError: NoneType object has no attribute strip"
    | some s => .ok (isBlank s)

/-- The comprehension itself, evaluated left to right, keeping order. -/
def missingAltImgs : List Elem → Except String (List Elem)
  | [] => .ok []
  | img :: rest => do
      let b ← altMissingB img
      let r ← missingAltImgs rest
      pure (if b then img :: r else r)

namespace AW

/-- check_schema_markup from src/analyze_website.py: JSON-LD scripts only,
matched case-insensitively via script.text.lower(). -/
def check_schema_markup (soup : Elem) : Bool × String :=
  let schema := find_all soup (.one "script")
      (some [("type", .str "application/ld+json")])
  let found := schema.any (fun s => strContains (lowerStr s.text) "schema.org")
  (found, if found then "Schema.org markup present."
          else "Add Schema.org structured data.")

/-- check_alt_text from src/analyze_website.py: zero images pass outright. -/
def check_alt_text (soup : Elem) : Except String (Bool × String) := do
  let images := find_all soup (.one "img") none
  if images.isEmpty then
    pure (true, "No images found.")
  else
    let images_missing_alt ← missingAltImgs images
    let found := images_missing_alt.isEmpty
    pure (found, if found then "All images have alt text."
                 else toString images_missing_alt.length
                   ++ " images missing alt text.")

end AW

namespace ARC

/-- check_schema_markup from src/ai_readiness_checker.py: JSON-LD scripts
only, case-insensitive, with redundant guards on empty script text and an
empty script list. -/
def check_schema_markup (soup : Elem) : Bool × String :=
  let schema := find_all soup (.one "script")
      (some [("type", .str "application/ld+json")])
  let found :=
    if schema.isEmpty then false
    else schema.any (fun s =>
      s.text ≠ "" && strContains (lowerStr s.text) "schema.org")
  (found, if found then "Schema.org markup present."
          else "Add Schema.org structured data.")

/-- check_alt_text from src/ai_readiness_checker.py: zero images pass
outright; on failure the details name both the missing and the total count. -/
def check_alt_text (soup : Elem) : Except String (Bool × String) := do
  let images := find_all soup (.one "img") none
  if images.isEmpty then
    pure (true, "No images found.")
  else
    let images_missing_alt ← missingAltImgs images
    let found := images_missing_alt.isEmpty
    pure (found, if found then "All images have alt text."
                 else toString images_missing_alt.length ++ " of "
                   ++ toString images.length ++ " images missing alt text.")

end ARC

namespace EV

/-- check_schema_markup from src/ai_readiness/evaluations.py (repeated
verbatim in src/app.py): JSON-LD scripts and itemscope Microdata, both matched
against the raw text, without any case folding. -/
def check_schema_markup (soup : Elem) : Bool × String :=
  let script_ld := find_all soup (.one "script")
      (some [("type", .str "application/ld+json")])
  let found_json_ld := script_ld.any (fun s => strContains s.text "schema.org")
  let tags_microdata := find_all soup .anyName (some [("itemscope", .pyTrue)])
  let found_microdata := tags_microdata.any (fun t =>
    pyTruthyStr (pyGet t "itemtype")
      && strContains ((pyGet t "itemtype").getD "") "schema.org")
  let found := found_json_ld || found_microdata
  if found then
    (true, pyJoin "; "
      ((if found_json_ld then ["JSON-LD found"] else [])
        ++ (if found_microdata then ["Microdata markup found"] else [])))
  else
    (false, "Add JSON-LD or Microdata schema.org structured data.")

/-- check_alt_text from src/ai_readiness/evaluations.py (repeated verbatim in
src/app.py): no zero-image guard; `found = len(images_missing_alt) == 0 and
len(images) > 0` makes an image-free document fail. -/
def check_alt_text (soup : Elem) : Except String (Bool × String) := do
  let images := find_all soup (.one "img") none
  let images_missing_alt ← missingAltImgs images
  let found := images_missing_alt.isEmpty && !images.isEmpty
  pure (found, if found then "All images have alt text."
               else toString images_missing_alt.length
                 ++ " images missing alt text.")

/-- check_caching_headers from src/ai_readiness/evaluations.py: membership
tests on the plain header dict, so the lookup is by the exact header name as
the server sent it. -/
def check_caching_headers (resp : Response) : Bool × String :=
  let headers := resp.headers
  let has_cache := (List.lookup "Cache-Control" headers).isSome
  let has_etag := (List.lookup "ETag" headers).isSome
  let found := has_cache || has_etag
  let details :=
    (if has_cache then
      ["Cache-Control: " ++ ((List.lookup "Cache-Control" headers).getD "")]
     else ["Missing Cache-Control header"])
    ++ (if has_etag then
      ["ETag: " ++ ((List.lookup "ETag" headers).getD "")]
     else ["Missing ETag header"])
  (found, pyJoin "; " details)

end EV

/-! ## Claims C4, C5, C9 -/

/-- Specification-level predicate of the alt-text rule: the img element has an
alt attribute carrying a non-blank string value. -/
def hasNonBlankAlt (img : Elem) : Bool :=
  match List.lookup "alt" img.attrs with
  | some (some s) => !isBlank s
  | _ => false

theorem altMissingB_of_wf (img : Elem)
    (h : List.lookup "alt" img.attrs ≠ some none) :
    altMissingB img = .ok (!hasNonBlankAlt img) := by
  unfold altMissingB hasNonBlankAlt has_attr
  cases hl : List.lookup "alt" img.attrs with
  | none => simp
  | some v =>
      cases v with
      | none => exact absurd hl h
      | some s => simp

theorem missingAltImgs_of_wf :
    ∀ l : List Elem,
      l.all (fun img => List.lookup "alt" img.attrs != some none) = true →
      missingAltImgs l = .ok (l.filter (fun i => !hasNonBlankAlt i)) := by
  intro l
  induction l with
  | nil => intro _; rfl
  | cons img rest ih =>
      intro h
      rw [List.all_cons, Bool.and_eq_true] at h
      have himg : List.lookup "alt" img.attrs ≠ some none := by
        intro he
        rw [he] at h
        simp [bne] at h
      rw [missingAltImgs, altMissingB_of_wf img himg, ih h.2]
      cases hp : hasNonBlankAlt img <;>
        simp [List.filter_cons, hp, bind, Except.bind, pure, Except.pure]

theorem filter_not_isEmpty_eq_all {α : Type} (p : α → Bool) (l : List α) :
    (l.filter (fun x => !p x)).isEmpty = l.all p := by
  induction l with
  | nil => rfl
  | cons x xs ih =>
      cases h : p x <;> simp [List.filter_cons, h, List.all_cons, ih]

/-- Claim C4 (refuting evidence): the check_alt_text duplicate in
src/ai_readiness/evaluations.py fails a document with zero images, with
details "0 images missing alt text." instead of passing with
"No images found."; and an img whose alt attribute is present but valueless
makes the src/ai_readiness_checker.py variant raise an AttributeError instead
of counting the image as missing. -/
theorem check_alt_text_zero_images_cex :
    EV.check_alt_text (Elem.mk "[document]" [] "" [])
      = .ok (false, "0 images missing alt text.")
    ∧ ARC.check_alt_text (Elem.mk "[document]" [] ""
        [Elem.mk "img" [("alt", none)] "" []])
      = .error "AttributeError: NoneType object has no attribute strip" :=
  ⟨rfl, rfl⟩

/-- Claim C4 as amended: for check_alt_text in src/ai_readiness_checker.py,
on a document in which no img carries a valueless alt attribute, zero images
pass with details exactly "No images found.", and otherwise the rule passes
iff every img has an alt attribute with a non-blank string value (alt=""
counts as missing), the failure details reporting the number of missing
images. -/
theorem check_alt_text_arc_amended (soup : Elem)
    (hwf : (find_all soup (.one "img") none).all
        (fun img => List.lookup "alt" img.attrs != some none) = true) :
    ARC.check_alt_text soup = .ok (
      if (find_all soup (.one "img") none).isEmpty then
        (true, "No images found.")
      else
        ((find_all soup (.one "img") none).all hasNonBlankAlt,
         if (find_all soup (.one "img") none).all hasNonBlankAlt then
           "All images have alt text."
         else
           toString ((find_all soup (.one "img") none).filter
               (fun i => !hasNonBlankAlt i)).length
             ++ " of " ++ toString (find_all soup (.one "img") none).length
             ++ " images missing alt text.")) := by
  unfold ARC.check_alt_text
  cases he : (find_all soup (.one "img") none).isEmpty
  · simp only [he, Bool.false_eq_true, if_false]
    rw [missingAltImgs_of_wf _ hwf]
    simp [Except.bind, bind, filter_not_isEmpty_eq_all, pure, Except.pure]
  · simp [he, pure, Except.pure]

/-- Witness for the amended claim C4: one img with alt="" makes the rule fail
and report one missing image out of one. -/
theorem check_alt_text_arc_amended_witness :
    ARC.check_alt_text (Elem.mk "[document]" [] ""
        [Elem.mk "img" [("alt", some "")] "" []])
      = .ok (false, "1 of 1 images missing alt text.") :=
  (check_alt_text_arc_amended
    (Elem.mk "[document]" [] "" [Elem.mk "img" [("alt", some "")] "" []])
    rfl).trans rfl

/-- Fixture for claim C5: a lone ld+json script whose body mentions
schema.org only in upper case. -/
def docLdUpper : Elem :=
  Elem.mk "[document]" [] ""
    [Elem.mk "script" [("type", some "application/ld+json")]
      "@context: HTTPS://SCHEMA.ORG" []]

/-- Fixture for claim C5: Microdata markup only, no ld+json script. -/
def docMicroOnly : Elem :=
  Elem.mk "[document]" [] ""
    [Elem.mk "div" [("itemscope", none),
      ("itemtype", some "https://schema.org/Article")] "" []]

/-- Fixture for claim C5, mirroring the repository test fixture of
test_schema_markup.py: an ld+json script with mixed-case schema.ORg plus a
Microdata element. -/
def docAppTest : Elem :=
  Elem.mk "[document]" [] ""
    [Elem.mk "script" [("type", some "application/ld+json")]
      "@context: https://schema.ORg" [],
     Elem.mk "div" [("itemscope", none),
      ("itemtype", some "https://schema.org/Article")] "" []]

/-- Claim C5 (refuting evidence): the evaluations.py/app.py variant matches
"schema.org" case-sensitively, so the upper-case JSON-LD body fails the rule;
the ai_readiness_checker.py variant ignores Microdata entirely, so a
Microdata-only document fails it; on the fixture of the repository test
test_app_jsonld_and_microdata the details are exactly "Microdata markup
found", without the "JSON-LD" the test asserts; the checker variant does
fold case as the claim states. -/
theorem check_schema_markup_case_bug :
    EV.check_schema_markup docLdUpper
      = (false, "Add JSON-LD or Microdata schema.org structured data.")
    ∧ ARC.check_schema_markup docMicroOnly
      = (false, "Add Schema.org structured data.")
    ∧ EV.check_schema_markup docAppTest = (true, "Microdata markup found")
    ∧ ARC.check_schema_markup docLdUpper = (true, "Schema.org markup present.") :=
  ⟨rfl, rfl, rfl, rfl⟩

/-- Detail fragment for the Cache-Control half of the caching rule. -/
def cacheControlDetail (headers : List (String × String)) : String :=
  if (List.lookup "Cache-Control" headers).isSome then
    "Cache-Control: " ++ ((List.lookup "Cache-Control" headers).getD "")
  else "Missing Cache-Control header"

/-- Detail fragment for the ETag half of the caching rule. -/
def etagDetail (headers : List (String × String)) : String :=
  if (List.lookup "ETag" headers).isSome then
    "ETag: " ++ ((List.lookup "ETag" headers).getD "")
  else "Missing ETag header"

/-- Claim C9 (refuting evidence): header lookup on a FetchResult is exact, not
case-insensitive: a server sending cache-control and etag in lower case fails
the caching rule even though both headers are present. -/
theorem check_caching_headers_case_cex :
    EV.check_caching_headers ⟨"http://example.com", [], "",
        [("cache-control", "max-age=60"), ("etag", "W-abc")], 200⟩
      = (false, "Missing Cache-Control header; Missing ETag header") := rfl

/-- Claim C9 as amended: header lookup is case-sensitive, on the names exactly
as the server sent them; the caching rule passes iff a key exactly equal to
Cache-Control or to ETag is present, and its details report the presence or
absence of each of the two headers independently. -/
theorem check_caching_headers_amended (resp : Response) :
    (EV.check_caching_headers resp).1
      = ((List.lookup "Cache-Control" resp.headers).isSome
          || (List.lookup "ETag" resp.headers).isSome)
    ∧ (EV.check_caching_headers resp).2
      = cacheControlDetail resp.headers ++ "; " ++ etagDetail resp.headers := by
  unfold EV.check_caching_headers cacheControlDetail etagDetail
  refine ⟨rfl, ?_⟩
  cases h1 : (List.lookup "Cache-Control" resp.headers).isSome <;>
    cases h2 : (List.lookup "ETag" resp.headers).isSome <;>
      simp [h1, h2, pyJoin]

/-! ## Claim C7: total page weight -/

/-- References collected by check_total_weight from
src/ai_readiness/evaluations.py: src of scripts, href of stylesheet links, src
of img, video and audio elements, in that order; the subscript access on a tag
selected by the key-exists filter yields the stored value, which is None for a
valueless attribute. -/
def resourceVals (soup : Elem) : List (Option String) :=
  ((find_all soup (.one "script") (some [("src", .pyTrue)])).map
      (fun t => (List.lookup "src" t.attrs).join))
  ++ ((find_all soup (.one "link")
        (some [("rel", .str "stylesheet"), ("href", .pyTrue)])).map
      (fun t => (List.lookup "href" t.attrs).join))
  ++ ((find_all soup (.one "img") (some [("src", .pyTrue)])).map
      (fun t => (List.lookup "src" t.attrs).join))
  ++ ((find_all soup (.one "video") (some [("src", .pyTrue)])).map
      (fun t => (List.lookup "src" t.attrs).join))
  ++ ((find_all soup (.one "audio") (some [("src", .pyTrue)])).map
      (fun t => (List.lookup "src" t.attrs).join))

/-- Resolution urllib.parse.urljoin(base_url, url) of one collected reference:
CPython urljoin begins with falsy-argument short circuits, and a falsy url -
in particular the None stored for a valueless src/href attribute - returns the
base unchanged, without raising.  A valueless reference therefore resolves to
the base URL itself and is probed like any other.  For string references the
resolution is delegated to the urljoin collaborator parameter. -/
def resolveRef (urljoin : String → String → String) (base : String) :
    Option String → String
  | none => base
  | some u => urljoin base u

/-- Number of bytes the resource at one absolute url adds to the total: the
try block around the HEAD probe turns any failure - a transport error raised
by head, a missing Content-Length header (the dict.get default 0), or a
ValueError from int() on a non-numeric header - into a contribution of
exactly 0. -/
def probeContribution (net : Net) (absUrl : String) : Int :=
  match reqHead absUrl net with
  | .error _ => 0
  | .ok h =>
      match List.lookup "Content-Length" h.headers with
      | none => 0
      | some s => (pyInt s).getD 0

/-- The accumulation loop of check_total_weight: resolve each reference
absolute against the base URL, probe it, add its contribution. -/
def weightLoop (net : Net) (urljoin : String → String → String) (base : String) :
    List (Option String) → Int → Int
  | [], acc => acc
  | r :: rest, acc =>
      weightLoop net urljoin base rest
        (acc + probeContribution net (resolveRef urljoin base r))

/-- Display of f-string {total/1024:.1f}, the kilobyte figure of the details
text (binary floating point display rounding approximated by round-half-up on
tenths; negative totals, reachable only through a negative Content-Length,
render as 0.0). -/
def kbStr (total : Int) : String :=
  let t := (total.toNat * 10 + 512) / 1024
  toString (t / 10) ++ "." ++ toString (t % 10)

/-- check_total_weight from src/ai_readiness/evaluations.py: base document
byte size plus the probed sizes of all referenced resources, compared against
the 2 MiB threshold.  The urljoin collaborator (urllib.parse) is passed in as
a function parameter.  Every exception inside the loop body is caught by the
try block, so the rule always returns. -/
def check_total_weight (net : Net) (urljoin : String → String → String)
    (resp : Response) (soup : Elem) (base_url : String) : Bool × String :=
  let total := weightLoop net urljoin base_url (resourceVals soup)
      ((resp.content.length : Int))
  let found := decide (total ≤ 2 * 1024 * 1024)
  (found, "Total page weight: " ++ kbStr total
    ++ " KB (including HTML & resources)")

theorem weightLoop_ok (net : Net) (urljoin : String → String → String)
    (base : String) :
    ∀ (refs : List (Option String)) (acc : Int),
      weightLoop net urljoin base refs acc
        = acc + (refs.map
            (fun r => probeContribution net (resolveRef urljoin base r))).sum := by
  intro refs
  induction refs with
  | nil => intro acc; simp [weightLoop]
  | cons u rest ih =>
      intro acc
      simp only [List.map_cons, weightLoop, List.sum_cons, ih]
      ring

/-- Claim C7: for every document, the rule returns normally with total = base
document byte length plus the sum of the per-resource contributions of all
collected src/href references resolved absolute against the base URL, passing
iff the total is at most 2*1024*1024 bytes; a HEAD probe that fails with a
transport error contributes exactly 0 and does not abort the summation, and so
does a probe whose response carries no Content-Length header. -/
theorem check_total_weight_spec (net : Net) (urljoin : String → String → String)
    (resp : Response) (soup : Elem) (base_url : String) :
    check_total_weight net urljoin resp soup base_url
      = (decide ((resp.content.length : Int)
              + ((resourceVals soup).map
                  (fun r => probeContribution net (resolveRef urljoin base_url r))).sum
              ≤ 2 * 1024 * 1024),
          "Total page weight: "
            ++ kbStr ((resp.content.length : Int)
              + ((resourceVals soup).map
                  (fun r => probeContribution net (resolveRef urljoin base_url r))).sum)
            ++ " KB (including HTML & resources)")
    ∧ (∀ u r, net "HEAD" u = .urlError r → probeContribution net u = 0)
    ∧ (∀ u hr, reqHead u net = .ok hr →
        List.lookup "Content-Length" hr.headers = none →
        probeContribution net u = 0) := by
  refine ⟨?_, ?_, ?_⟩
  · rw [check_total_weight, weightLoop_ok]
  · intro u r hu
    rw [probeContribution, reqHead, _request, hu]
  · intro u hr hok hcl
    rw [probeContribution, hok]
    simp [hcl]

/-- Concrete fixtures for the claim C7 witness: three referenced resources -
one probe answering with Content-Length 100, one failing with a transport
timeout, and one valueless src that resolves to the base URL, whose probe also
fails. -/
def soupWeight : Elem :=
  Elem.mk "[document]" [] ""
    [Elem.mk "script" [("src", some "a.js")] "" [],
     Elem.mk "img" [("src", some "b.png")] "" [],
     Elem.mk "img" [("src", none)] "" []]

def netWeight : Net := fun _ u =>
  if u == "base/a.js" then .success [] "" [("Content-Length", "100")] 200
  else .urlError "timeout"

def joinSlash : String → String → String := fun b u => b ++ u

/-- Witness for claim C7: a 3-byte base document plus a 100-byte probed
resource plus two failed probes (one of them the base URL a valueless src
resolves to) gives 103 bytes, passing the 2 MiB threshold, and both failed
probes contribute exactly 0. -/
theorem check_total_weight_spec_witness :
    check_total_weight netWeight joinSlash ⟨"u", [0, 1, 2], "", [], 200⟩
        soupWeight "base/"
      = (true, "Total page weight: 0.1 KB (including HTML & resources)")
    ∧ probeContribution netWeight "base/b.png" = 0
    ∧ probeContribution netWeight (resolveRef joinSlash "base/" none) = 0 :=
  ⟨((check_total_weight_spec netWeight joinSlash ⟨"u", [0, 1, 2], "", [], 200⟩
      soupWeight "base/").1).trans rfl,
   (check_total_weight_spec netWeight joinSlash ⟨"u", [0, 1, 2], "", [], 200⟩
      soupWeight "base/").2.1 "base/b.png" "timeout" rfl,
   (check_total_weight_spec netWeight joinSlash ⟨"u", [0, 1, 2], "", [], 200⟩
      soupWeight "base/").2.1 (resolveRef joinSlash "base/" none) "timeout" rfl⟩

/-! ## Orchestrator (src/analyze_website.py) and claims C6, C8, C10 -/

/-- One row of the checks list: rule name, pass flag, details, and the status
symbol the orchestrator adds before assembling the report. -/
structure Check where
  Rule : String
  Pass : Bool
  Details : String
  Status : String

/-- The Report record assembled by analyze_website in src/analyze_website.py
(the src/ai_readiness_checker.py twin adds a page_summary and a timestamp on
top of the same fields; those extras are outside the claims).  The Python
float score is embedded as an exact rational. -/
structure Report where
  url : String
  score : Rat
  passed : Nat
  total : Nat
  checks : List Check
  recommendations : List String

/-- The error dictionary returned when any exception is caught. -/
structure ErrorReport where
  error : String

/-- A registry entry: rule name paired with its evaluator.  Evaluators that
can raise (check_alt_text) live in Except; the pure ones are wrapped with ok. -/
abbrev RuleEntry := String × (Elem → Except String (Bool × String))

/-- The fixed rule registry of src/analyze_website.py, in declaration order of
its checks list. -/
def RULES : List RuleEntry :=
  [("Semantic HTML", fun s => .ok (check_semantic_html s)),
   ("Schema.org Markup", fun s => .ok (AW.check_schema_markup s)),
   ("Headings Structure", fun s => .ok (check_headings_structure s)),
   ("Alt Text for Images", AW.check_alt_text),
   ("Lists/Tables", fun s => .ok (check_lists_and_tables s)),
   ("Language Attribute", fun s => .ok (check_language_attribute s)),
   ("Transcripts/Captions", fun s => .ok (check_transcripts_captions s))]

/-- Build one checks-list row; the status symbol is determined by the pass
flag exactly as the later for loop sets it. -/
def mkCheck (name : String) (r : Bool × String) : Check :=
  ⟨name, r.1, r.2, if r.1 then "✅" else "❌"⟩

/-- Evaluate the registry in declaration order (the Python list display
evaluates its entries left to right); the first exception propagates. -/
def runRules (rules : List RuleEntry) (soup : Elem) : Except String (List Check) :=
  match rules with
  | [] => .ok []
  | p :: rest => do
      let r ← p.2 soup
      let cs ← runRules rest soup
      pure (mkCheck p.1 r :: cs)

/-- Python str(e) for the two urllib exceptions (message text abbreviated). -/
def errStr : NetErr → String
  | .httpError c _ => "HTTP Error " ++ toString c
  | .urlError r => "urlopen error " ++ r

/-- Body of the try block of analyze_website: fetch, parse, run the checks
list, compute score and recommendations.  The division num_passed /
total_checks raises ZeroDivisionError when the registry is empty (the
concrete registry has seven rules, so the branch is unreachable there). -/
def analyzeBody (rules : List RuleEntry) (net : Net)
    (tokenize : String → List Tok) (url : String) : Except String Report := do
  let resp ← Except.mapError errStr (reqGet url net)
  let soup ← parseDoc (tokenize resp.text)
  let checks ← runRules rules soup
  let num_passed := (checks.filter (fun c => c.Pass)).length
  let total_checks := checks.length
  if total_checks == 0 then
    Except.error "ZeroDivisionError: division by zero"
  else
    pure { url := url,
           score := ((num_passed : Rat) / (total_checks : Rat)) * 100,
           passed := num_passed,
           total := total_checks,
           checks := checks,
           recommendations := (checks.filter (fun c => !c.Pass)).map
             (fun c => c.Rule ++ ": " ++ c.Details) }

/-- analyze_website with the registry as a parameter: the try/except wrapper
converting any exception e into the return value with error str(e). -/
def analyzeWith (rules : List RuleEntry) (net : Net)
    (tokenize : String → List Tok) (url : String) : Sum Report ErrorReport :=
  match analyzeBody rules net tokenize url with
  | .ok r => .inl r
  | .error e => .inr ⟨e⟩

/-- analyze_website from src/analyze_website.py, over its fixed registry. -/
def analyze_website (net : Net) (tokenize : String → List Tok) (url : String) :
    Sum Report ErrorReport :=
  analyzeWith RULES net tokenize url

theorem runRules_ok_names (soup : Elem) :
    ∀ (rules : List RuleEntry) (cs : List Check),
      runRules rules soup = .ok cs →
      cs.map (fun c => c.Rule) = rules.map (fun p => p.1) := by
  intro rules
  induction rules with
  | nil =>
      intro cs h
      rw [runRules] at h
      cases h
      rfl
  | cons p rest ih =>
      intro cs h
      rw [runRules] at h
      cases hp : p.2 soup with
      | error e => rw [hp] at h; exact absurd h (by simp [bind, Except.bind])
      | ok r =>
          rw [hp] at h
          cases hrest : runRules rest soup with
          | error e =>
              rw [hrest] at h
              exact absurd h (by simp [bind, Except.bind])
          | ok cs2 =>
              rw [hrest] at h
              simp only [bind, Except.bind, pure, Except.pure, Except.ok.injEq] at h
              subst h
              simp [mkCheck, ih cs2 hrest]

theorem runRules_ok_length (soup : Elem) (rules : List RuleEntry)
    (cs : List Check) (h : runRules rules soup = .ok cs) :
    cs.length = rules.length := by
  have := congrArg List.length (runRules_ok_names soup rules cs h)
  simpa using this

/-- Claim C6: every completed analysis run produces a report whose total
equals the number of rules executed, whose passed equals the number of checks
with a true pass flag, whose score is exactly 100 * passed / total, whose
checks appear in registry declaration order, and whose recommendations are
exactly one Rule-colon-Details string per failed check, in the same relative
order as the checks. -/
theorem analyze_report_invariants (net : Net) (tokenize : String → List Tok)
    (url : String) (r : Report)
    (h : analyze_website net tokenize url = .inl r) :
    r.total = RULES.length
    ∧ r.checks.length = r.total
    ∧ r.passed = (r.checks.filter (fun c => c.Pass)).length
    ∧ r.score = 100 * (r.passed : Rat) / (r.total : Rat)
    ∧ r.checks.map (fun c => c.Rule) = RULES.map (fun p => p.1)
    ∧ r.recommendations = (r.checks.filter (fun c => !c.Pass)).map
        (fun c => c.Rule ++ ": " ++ c.Details) := by
  rw [analyze_website, analyzeWith] at h
  cases hb : analyzeBody RULES net tokenize url with
  | error e => rw [hb] at h; exact absurd h (by simp)
  | ok rep =>
      rw [hb] at h
      simp only [Sum.inl.injEq] at h
      subst h
      rw [analyzeBody] at hb
      cases hg : Except.mapError errStr (reqGet url net) with
      | error e => rw [hg] at hb; exact absurd hb (by simp [bind, Except.bind])
      | ok resp =>
          rw [hg] at hb
          simp only [bind, Except.bind] at hb
          cases hp : parseDoc (tokenize resp.text) with
          | error e =>
              rw [hp] at hb
              exact absurd hb (by simp)
          | ok soup =>
              rw [hp] at hb
              simp only at hb
              cases hr : runRules RULES soup with
              | error e =>
                  rw [hr] at hb
                  exact absurd hb (by simp)
              | ok checks =>
                  rw [hr] at hb
                  have hlen : checks.length = RULES.length :=
                    runRules_ok_length soup RULES checks hr
                  have hne : (checks.length == 0) = false := by
                    rw [hlen]; rfl
                  simp only [hne, Bool.false_eq_true, if_false, pure,
                    Except.pure, Except.ok.injEq] at hb
                  subst hb
                  refine ⟨hlen, rfl, rfl, by ring, ?_, rfl⟩
                  exact runRules_ok_names soup RULES checks hr

/-- Oracle and tokenizer for the claim C6 witness: an empty page that fetches
successfully. -/
def netDemo : Net := fun _ _ => .success [] "" [] 200

def tokenizeDemo : String → List Tok := fun _ => []

/-- The concrete report of the witness run. -/
def demoReport : Report :=
  match analyze_website netDemo tokenizeDemo "http://example.com" with
  | .inl r => r
  | .inr _ => ⟨"", 0, 0, 0, [], []⟩

/-- Witness for claim C6 on a concrete completed run. -/
theorem analyze_report_invariants_witness :
    demoReport.total = RULES.length
    ∧ demoReport.checks.length = demoReport.total
    ∧ demoReport.passed = (demoReport.checks.filter (fun c => c.Pass)).length
    ∧ demoReport.score = 100 * (demoReport.passed : Rat) / (demoReport.total : Rat)
    ∧ demoReport.checks.map (fun c => c.Rule) = RULES.map (fun p => p.1)
    ∧ demoReport.recommendations = (demoReport.checks.filter (fun c => !c.Pass)).map
        (fun c => c.Rule ++ ": " ++ c.Details) :=
  analyze_report_invariants netDemo tokenizeDemo "http://example.com" demoReport rfl

/-- Claim C8: when the primary fetch fails, the orchestrator returns the error
dictionary built from the exception message, whatever the registry and
whatever the tokenizer - no rule evaluator and no parse step influences the
result. -/
theorem fetch_failure_short_circuit (net : Net) (url : String) (e : NetErr)
    (h : reqGet url net = .error e) :
    ∀ (rules : List RuleEntry) (tokenize : String → List Tok),
      analyzeWith rules net tokenize url = .inr ⟨errStr e⟩ := by
  intro rules tokenize
  rw [analyzeWith, analyzeBody, h]
  rfl

/-- Transport failure used by the claim C8 witness. -/
def netDown : Net := fun _ _ => .urlError "Name or service not known"

/-- Witness for claim C8: a DNS-style failure short-circuits into the error
report, with the concrete registry and tokenizer. -/
theorem fetch_failure_short_circuit_witness :
    analyzeWith RULES netDown tokenizeDemo "http://nope.invalid"
      = .inr ⟨"urlopen error Name or service not known"⟩ :=
  fetch_failure_short_circuit netDown "http://nope.invalid"
    (.urlError "Name or service not known") rfl RULES tokenizeDemo

/-- Claim C10: the try/except wrapper makes analyze_website total: a completed
body yields the full report, and an exception raised at any stage - the fetch,
the parse, or inside any rule evaluator - is caught and converted into the
error dictionary with that exception message; no exception propagates and no
partial report is returned. -/
theorem analyze_never_raises (rules : List RuleEntry) (net : Net)
    (tokenize : String → List Tok) (url : String) :
    (∀ r, analyzeBody rules net tokenize url = .ok r →
        analyzeWith rules net tokenize url = .inl r)
    ∧ (∀ e, analyzeBody rules net tokenize url = .error e →
        analyzeWith rules net tokenize url = .inr ⟨e⟩)
    ∧ (∀ e, reqGet url net = .error e →
        analyzeWith rules net tokenize url = .inr ⟨errStr e⟩)
    ∧ (∀ resp e, reqGet url net = .ok resp →
        parseDoc (tokenize resp.text) = .error e →
        analyzeWith rules net tokenize url = .inr ⟨e⟩)
    ∧ (∀ resp soup e, reqGet url net = .ok resp →
        parseDoc (tokenize resp.text) = .ok soup →
        runRules rules soup = .error e →
        analyzeWith rules net tokenize url = .inr ⟨e⟩) := by
  refine ⟨?_, ?_, ?_, ?_, ?_⟩
  · intro r h; rw [analyzeWith, h]
  · intro e h; rw [analyzeWith, h]
  · intro e h; rw [analyzeWith, analyzeBody, h]; rfl
  · intro resp e hg hp
    rw [analyzeWith, analyzeBody, hg]
    simp [Except.mapError, bind, Except.bind, hp]
  · intro resp soup e hg hp hr
    rw [analyzeWith, analyzeBody, hg]
    simp [Except.mapError, bind, Except.bind, hp, hr]

/-- Oracle, tokenizer and parsed document for the claim C10 witness: the page
carries one img with a valueless alt attribute, which makes the alt-text rule
raise inside the registry run. -/
def netUp : Net := fun _ _ => .success [] "<img alt>" [] 200

def tokenizeImg : String → List Tok := fun _ => [.startTag "img" [("alt", none)]]

def soupImg : Elem :=
  match parseDoc [Tok.startTag "img" [("alt", none)]] with
  | .ok s => s
  | .error _ => Elem.mk "" [] "" []

/-- Witness for claim C10: the AttributeError raised inside the alt-text rule
is caught and converted into the error dictionary. -/
theorem analyze_never_raises_witness :
    analyzeWith RULES netUp tokenizeImg "http://example.com"
      = .inr ⟨"AttributeError: NoneType object has no attribute strip"⟩ :=
  (analyze_never_raises RULES netUp tokenizeImg "http://example.com").2.2.2.2
    ⟨"http://example.com", [], "<img alt>", [], 200⟩ soupImg
    "AttributeError: NoneType object has no attribute strip" rfl rfl rfl
